import Mathlib

/-!
# serverWebRTC: the signaling-to-recording pipeline

A shallow embedding of `saver/webmsaver.go` (`WebmSaver`) and of the recording
and control-message paths of `main.go` (`recordVideo`, the `dc.OnMessage`
handler), followed by theorems about them.

Effects are made explicit: every call that leaves the program (opening the
container, writing a block, closing the writer, closing the peer connection,
logging a read error) is appended to a trace of `Event`s, and every answer the
outside world gives (does the file open, does the write succeed, what does the
track deliver, what does the clock say) is an explicit input. A Go runtime
panic is a value of `Panic`.
-/

namespace ServerWebRTC

/-! ## Data model -/

/-- A Go `byte`. -/
abbrev Byte := Fin 256

/-- The fields of `media.Sample` that the saver reads: the payload and the
presentation duration (`time.Duration`, signed 64-bit nanoseconds). -/
structure Sample where
  Data : List Byte
  Duration : Int
deriving DecidableEq, Repr

/-- An `*rtp.Packet` that is not nil; the saver only hands it on to the sample
builder, so its content is an identifier here. -/
structure Packet where
  id : Nat
deriving DecidableEq, Repr

/-- Value of `track.Kind()`. -/
inductive Kind where
  | video
  | audio
deriving DecidableEq, Repr

/-- A `*webrtc.TrackRemote` that is not nil. -/
structure Track where
  kind : Kind
  mimeType : String
deriving DecidableEq, Repr

/-- The block writer that `InitWriter` stores in `videoWriter`: the file it was
opened on and the dimensions written into the track header. -/
structure Writer where
  file : String
  PixelWidth : Nat
  PixelHeight : Nat
deriving DecidableEq, Repr

/-- The fields of `WebmSaver` that the recording path uses. `videoWriter = none`
is the nil interface value. -/
structure WebmSaver where
  videoWriter : Option Writer
  videoTimestamp : Int
deriving DecidableEq, Repr

/-- A Go runtime panic. -/
inductive Panic where
  /-- Index out of range: `xs[index]` with `len xs = len`. -/
  | indexOutOfRange (index len : Nat)
  /-- Nil pointer dereference. -/
  | nilDereference
deriving DecidableEq, Repr

/-- The observable calls of the pipeline, in call order. -/
inductive Event where
  /-- The call `s.InitWriter(filename, width, height)`. -/
  | InitWriter (filename : String) (width height : Nat)
  /-- The call `s.videoWriter.Write(keyframe, timestamp, data)`. -/
  | Write (keyframe : Bool) (timestamp : Int) (data : List Byte)
  /-- The call `s.videoWriter.Close()`. -/
  | WriterClose
  /-- The call `saver.Close()` made by `recordVideo`. -/
  | SaverClose
  /-- The call `saver.PushChuncks(rtp, filename)` made by `recordVideo`;
  `none` is a nil packet. -/
  | PushChuncks (packet : Option Packet)
  /-- The line `fmt.Println(readErr)` of `recordVideo`. -/
  | LogReadError
  /-- The call `recordVideo(track, filename)` made by the message handler;
  `none` is a nil track. -/
  | RecordVideo (track : Option Track) (filename : String)
  /-- The call `peerConnection.Close()`. -/
  | PeerClose
deriving DecidableEq, Repr

/-- What the outside world answers while one sample is processed: whether
`os.OpenFile` succeeds, whether `webm.NewSimpleBlockWriter` succeeds, and
whether `videoWriter.Write` returns a nil error. Each is asked at most once per
sample. -/
structure Env where
  openOk : Bool
  newWriterOk : Bool
  writeOk : Bool
deriving DecidableEq, Repr

deriving instance DecidableEq for Except

/-- The result of running a piece of code: the calls it made, and either the
value it returned or the panic that stopped it. -/
structure Run (α : Type) where
  trace : List Event
  result : Except Panic α
deriving DecidableEq

/-! ## `saver/webmsaver.go` -/

/-- Conversion of a mathematical integer to Go's wrapping `int64`. -/
def wrapInt64 (x : Int) : Int :=
  (x + 2 ^ 63) % 2 ^ 64 - 2 ^ 63

/-- The constant `time.Millisecond`, in nanoseconds. -/
def Millisecond : Int := 1000000

/-- The constructor `NewWebmSaver`: no writer, timestamp zero. -/
def NewWebmSaver : WebmSaver :=
  { videoWriter := none, videoTimestamp := 0 }

/-- The method `WebmSaver.Close`: calls `videoWriter.Close()` when the writer is
not nil; an error of that call is printed and dropped. The saver is not
modified. -/
def Close (s : WebmSaver) : WebmSaver × List Event :=
  match s.videoWriter with
  | some _ => (s, [Event.WriterClose])
  | none => (s, [])

/-- The method `WebmSaver.InitWriter`: returns early, leaving the saver as it
was, when the file cannot be opened or the block writer cannot be created;
otherwise stores the new writer. -/
def InitWriter (s : WebmSaver) (filename : String) (width height : Nat) (env : Env) :
    WebmSaver :=
  if !env.openOk then s
  else if !env.newWriterOk then s
  else { s with videoWriter := some ⟨filename ++ ".webm", width, height⟩ }

/-- The index expression `xs[i]` on a slice: panics when `i` is out of range. -/
def index {α : Type} (xs : List α) (i : Nat) : Except Panic α :=
  match xs[i]? with
  | some b => .ok b
  | none => .error (Panic.indexOutOfRange i xs.length)

/-- The expression
`uint(d[6]) | uint(d[7])<<8 | uint(d[8])<<16 | uint(d[9])<<24`.
The value is below `2^32`, so it is the same for a 32-bit and a 64-bit
`uint`. -/
def rawOf (b0 b1 b2 b3 : Byte) : Nat :=
  b0.val ||| (b1.val <<< 8) ||| (b2.val <<< 16) ||| (b3.val <<< 24)

/-- The expression `int((raw >> 16) & 0x3FFF)`. -/
def widthOf (raw : Nat) : Nat := (raw >>> 16) &&& 0x3FFF

/-- The expression `int(raw & 0x3FFF)`. -/
def heightOf (raw : Nat) : Nat := raw &&& 0x3FFF

/-- The `if videoKeyframe { ... }` block of `PushChuncks`: reads the four
dimension bytes, computes width and height, and calls `InitWriter` when no
writer is open. -/
def keyframeBlock (s : WebmSaver) (filename : String) (sample : Sample) (env : Env) :
    Run WebmSaver :=
  match index sample.Data 6 with
  | .error p => ⟨[], .error p⟩
  | .ok b0 =>
  match index sample.Data 7 with
  | .error p => ⟨[], .error p⟩
  | .ok b1 =>
  match index sample.Data 8 with
  | .error p => ⟨[], .error p⟩
  | .ok b2 =>
  match index sample.Data 9 with
  | .error p => ⟨[], .error p⟩
  | .ok b3 =>
    let raw := rawOf b0 b1 b2 b3
    let width := widthOf raw
    let height := heightOf raw
    match s.videoWriter with
    | none => ⟨[Event.InitWriter filename width height],
               .ok (InitWriter s filename width height env)⟩
    | some _ => ⟨[], .ok s⟩

/-- The `if s.videoWriter != nil { ... }` block of `PushChuncks`: advances the
running timestamp by the sample duration, writes the block, and on a write
error calls `s.Close()`. -/
def writeBlock (s : WebmSaver) (videoKeyframe : Bool) (sample : Sample) (env : Env) :
    WebmSaver × List Event :=
  match s.videoWriter with
  | none => (s, [])
  | some _ =>
    let s1 := { s with videoTimestamp := wrapInt64 (s.videoTimestamp + sample.Duration) }
    let w := Event.Write videoKeyframe (Int.tdiv s1.videoTimestamp Millisecond) sample.Data
    if env.writeOk then (s1, [w])
    else
      let (s2, closing) := Close s1
      (s2, w :: closing)

/-- One pass through the body of the `for` loop of `PushChuncks`, for a sample
that `videoBuilder.Pop()` returned. -/
def loopBody (s : WebmSaver) (filename : String) (sample : Sample) (env : Env) :
    Run WebmSaver :=
  match index sample.Data 0 with
  | .error p => ⟨[], .error p⟩
  | .ok d0 =>
    let videoKeyframe := (d0.val &&& 0x1 == 0)
    let afterKey : Run WebmSaver :=
      if videoKeyframe then keyframeBlock s filename sample env else ⟨[], .ok s⟩
    match afterKey.result with
    | .error p => ⟨afterKey.trace, .error p⟩
    | .ok s1 =>
      let (s2, written) := writeBlock s1 videoKeyframe sample env
      ⟨afterKey.trace ++ written, .ok s2⟩

/-- The `for` loop of `PushChuncks`, over the samples that successive calls of
`videoBuilder.Pop()` return before it returns nil. -/
def drain (s : WebmSaver) (filename : String) : List (Sample × Env) → Run WebmSaver
  | [] => ⟨[], .ok s⟩
  | (sample, env) :: rest =>
    let r := loopBody s filename sample env
    match r.result with
    | .error p => ⟨r.trace, .error p⟩
    | .ok s1 =>
      let r2 := drain s1 filename rest
      ⟨r.trace ++ r2.trace, r2.result⟩

/-- The method `WebmSaver.PushChuncks`. The sample builder is a library outside
this repository: `popped` is what its `Pop` yields after this `Push`.
`videoBuilder.Push` reads the fields of the packet it is given, so a nil packet
is a nil dereference. -/
def PushChuncks (s : WebmSaver) (rtpPacket : Option Packet) (filename : String)
    (popped : List (Sample × Env)) : Run WebmSaver :=
  match rtpPacket with
  | none => ⟨[], .error Panic.nilDereference⟩
  | some _ => drain s filename popped

/-! ## `main.go` -/

/-- The constant `MAX_VIDEO_DURATION`, in seconds. -/
def MAX_VIDEO_DURATION : Int := 10

/-- The expression `int(ellapse.Seconds())` for a duration in nanoseconds:
`Seconds` is whole seconds plus the sub-second fraction, and the conversion to
`int` drops the fraction, truncating toward zero. -/
def seconds (ellapse : Int) : Int := Int.tdiv ellapse 1000000000

/-- What `track.ReadRTP()` returned: a packet with a nil error, `io.EOF`, or
another error (the packet is then nil). -/
inductive ReadResult where
  | packet (p : Packet)
  | eof
  | failed
deriving DecidableEq, Repr

/-- The inputs of one pass through the loop of `recordVideo`: the value of
`time.Since(now)` at its top, the result of `track.ReadRTP()`, and what the
sample builder pops after the push of this pass. -/
structure Iteration where
  since : Int
  read : ReadResult
  popped : List (Sample × Env)

/-- How `recordVideo` returned: from the `io.EOF` branch, or by leaving the
loop when its condition `int(ellapse.Seconds()) < MAX_VIDEO_DURATION` failed. -/
inductive Exit where
  | eof
  | deadline
deriving DecidableEq, Repr

/-- Puts the calls already made in front of the trace of a run. -/
def Run.after {α : Type} (before : List Event) (r : Run α) : Run α :=
  ⟨before ++ r.trace, r.result⟩

/-- The `for` loop of `recordVideo` and the return that follows it. `ellapse`
is the current value of the variable of that name. The result is `none` when
the script of inputs ends before the function has returned or panicked. -/
def recordLoop (track : Track) (filename : String) :
    List Iteration → Int → WebmSaver → Option (Run Exit)
  | script, ellapse, saver =>
    if seconds ellapse < MAX_VIDEO_DURATION then
      match script with
      | [] => none
      | it :: rest =>
        match it.read with
        | ReadResult.eof =>
          some ⟨Event.SaverClose :: (Close saver).2, .ok Exit.eof⟩
        | ReadResult.failed =>
          match track.kind with
          | Kind.video =>
            let r := PushChuncks saver none filename it.popped
            match r.result with
            | .error p =>
              some ⟨Event.LogReadError :: Event.PushChuncks none :: r.trace, .error p⟩
            | .ok saver1 =>
              (recordLoop track filename rest it.since saver1).map
                (Run.after (Event.LogReadError :: Event.PushChuncks none :: r.trace))
          | Kind.audio =>
            (recordLoop track filename rest it.since saver).map
              (Run.after [Event.LogReadError])
        | ReadResult.packet p =>
          match track.kind with
          | Kind.video =>
            let r := PushChuncks saver (some p) filename it.popped
            match r.result with
            | .error e => some ⟨Event.PushChuncks (some p) :: r.trace, .error e⟩
            | .ok saver1 =>
              (recordLoop track filename rest it.since saver1).map
                (Run.after (Event.PushChuncks (some p) :: r.trace))
          | Kind.audio => recordLoop track filename rest it.since saver
    else
      some ⟨[], .ok Exit.deadline⟩

/-- The function `recordVideo`. Its first statement calls `track.Codec()`, which
reads the fields of the track: a nil track is a nil dereference. `since0` is
the value of the first `time.Since(now)`, taken before the loop. The
depacketizer chosen from the MIME type is used inside the sample builder only,
whose output is an input of the script. -/
def recordVideo (track : Option Track) (filename : String) (since0 : Int)
    (script : List Iteration) : Option (Run Exit) :=
  match track with
  | none => some ⟨[], .error Panic.nilDereference⟩
  | some t => recordLoop t filename script since0 NewWebmSaver

/-- Splits a string at every occurrence of the character `sep`, as
`strings.Split(s, sep)` does for a one-character separator: a string with `n`
separators gives `n + 1` fields. -/
def splitChars (sep : Char) : List Char → List (List Char)
  | [] => [[]]
  | c :: cs =>
    if c = sep then [] :: splitChars sep cs
    else
      match splitChars sep cs with
      | [] => [[c]]
      | field :: fields => (c :: field) :: fields

/-- The call `strings.Split(s, ";")`. -/
def Split (s : String) : List String :=
  (splitChars ';' s.data).map String.mk

/-- The handler that `createWebRTCConn` passes to `dc.OnMessage`. `tracks` is
the global map of that name (`none` for an absent key, which Go reads as a nil
track); `since0` and `script` are the inputs of the recording, should one
run. -/
def onMessage (tracks : String → Option Track) (data : String) (since0 : Int)
    (script : List Iteration) : Option (Run Unit) :=
  let message := Split data
  match index message 1 with
  | .error p => some ⟨[], .error p⟩
  | .ok command =>
    if command = "start" then
      match index message 0 with
      | .error p => some ⟨[], .error p⟩
      | .ok id =>
        match recordVideo (tracks id) id since0 script with
        | none => none
        | some r =>
          match r.result with
          | .error p => some ⟨Event.RecordVideo (tracks id) id :: r.trace, .error p⟩
          | .ok _ =>
            some ⟨Event.RecordVideo (tracks id) id :: r.trace ++ [Event.PeerClose], .ok ()⟩
    else if command = "stop" then
      some ⟨[Event.PeerClose], .ok ()⟩
    else
      some ⟨[], .ok ()⟩

/-! ## Reading a trace -/

/-- Whether an event is a call of `videoWriter.Write`. -/
def Event.isWrite : Event → Bool
  | Event.Write _ _ _ => true
  | _ => false

/-- The keyframe flags passed to `videoWriter.Write`, in call order. -/
def writeFlags : List Event → List Bool
  | [] => []
  | Event.Write k _ _ :: rest => k :: writeFlags rest
  | _ :: rest => writeFlags rest

/-! ## Vocabulary of the statements -/

/-- Whether a sample is a keyframe sample: its payload has a byte 0 and the low
bit of that byte is 0. -/
def isKeyframe (sample : Sample) : Bool :=
  match sample.Data[0]? with
  | some d0 => d0.val % 2 == 0
  | none => false

/-- All samples the sample builder pops during a script, in order. -/
def scriptSamples : List Iteration → List (Sample × Env)
  | [] => []
  | it :: rest => it.popped ++ scriptSamples rest

/-- The calls of `videoWriter.Write` in a trace. -/
def writes (trace : List Event) : List Event :=
  trace.filter Event.isWrite

/-- The calls `s.Close()` made `n` times in a row on one saver. -/
def closeTimes : Nat → WebmSaver → WebmSaver × List Event
  | 0, s => (s, [])
  | n + 1, s =>
    let first := Close s
    let later := closeTimes n first.1
    (later.1, first.2 ++ later.2)

/-! ## Concrete inputs -/

/-- A video track with the VP8 codec. -/
def videoTrack : Track := ⟨Kind.video, "video/VP8"⟩

/-- An environment in which every call succeeds. -/
def allOk : Env := ⟨true, true, true⟩

/-- An environment in which the container opens and `videoWriter.Write` returns
an error. -/
def writeFails : Env := ⟨true, true, false⟩

/-- A keyframe sample of 33 ms whose bytes 6 to 9 are `0x00,0x00,0x01,0x00`. -/
def keySample : Sample := ⟨[0x10, 0x02, 0x00, 0x9d, 0x01, 0x2a, 0x00, 0x00, 0x01, 0x00], 33000000⟩

/-- A sample of 33 ms that is not a keyframe (low bit of byte 0 is 1). -/
def deltaSample : Sample := ⟨[0x11, 0x02, 0x00], 33000000⟩

/-- A keyframe sample (low bit of byte 0 is 0) of three bytes. -/
def shortKeySample : Sample := ⟨[0x10, 0x02, 0x00], 33000000⟩

/-- A sample with an empty payload. -/
def emptySample : Sample := ⟨[], 33000000⟩

/-- A saver whose writer has been opened. -/
def openSaver : WebmSaver := ⟨some ⟨"rec.webm", 1, 0⟩, 0⟩

/-- A registry of tracks with the one entry `"id"`. -/
def oneTrack (id : String) : Option Track :=
  if id = "id" then some videoTrack else none

/-- A registry of tracks without entries. -/
def noTracks (_ : String) : Option Track := none

/-! ## Lemmas -/

theorem lowBit_eq (d0 : Byte) : (d0.val &&& 0x1 == 0) = (d0.val % 2 == 0) := by
  rw [Nat.and_one_is_mod]

theorem index_eq_ok {α : Type} (xs : List α) (i : Nat) (b : α) (h : xs[i]? = some b) :
    index xs i = .ok b := by
  simp [index, h]

theorem loopBody_of_not_keyframe (s : WebmSaver) (f : String) (x : Sample) (env : Env)
    (hs : s.videoWriter = none) (hx : isKeyframe x = false) :
    (loopBody s f x env).trace = [] ∧
      ((loopBody s f x env).result = .ok s ∨ ∃ p, (loopBody s f x env).result = .error p) := by
  unfold isKeyframe at hx
  unfold loopBody index
  cases h0 : x.Data[0]? with
  | none => simp
  | some d0 =>
    rw [h0] at hx
    simp only at hx
    simp only [lowBit_eq, hx]
    simp [writeBlock, hs]

theorem writeFlags_append (a b : List Event) :
    writeFlags (a ++ b) = writeFlags a ++ writeFlags b := by
  induction a with
  | nil => rfl
  | cons e rest ih => cases e <;> simp [writeFlags, ih]

theorem writeBlock_none (s : WebmSaver) (k : Bool) (x : Sample) (env : Env)
    (hs : s.videoWriter = none) : writeBlock s k x env = (s, []) := by
  simp [writeBlock, hs]

theorem writeBlock_flags (s : WebmSaver) (k : Bool) (x : Sample) (env : Env)
    (hs : s.videoWriter ≠ none) : writeFlags (writeBlock s k x env).2 = [k] := by
  cases hv : s.videoWriter with
  | none => exact absurd hv hs
  | some w => cases hw : env.writeOk <;> simp [writeBlock, hv, hw, Close, writeFlags]

theorem drain_cons_error (s : WebmSaver) (f : String) (x : Sample) (env : Env)
    (rest : List (Sample × Env)) (p : Panic)
    (h : (loopBody s f x env).result = .error p) :
    drain s f ((x, env) :: rest) = ⟨(loopBody s f x env).trace, .error p⟩ := by
  simp only [drain, h]

theorem drain_cons_ok (s s1 : WebmSaver) (f : String) (x : Sample) (env : Env)
    (rest : List (Sample × Env))
    (h : (loopBody s f x env).result = .ok s1) :
    drain s f ((x, env) :: rest) =
      ⟨(loopBody s f x env).trace ++ (drain s1 f rest).trace, (drain s1 f rest).result⟩ := by
  simp only [drain, h]

theorem InitWriter_cases (s : WebmSaver) (f : String) (w h : Nat) (env : Env) :
    InitWriter s f w h env = s ∨
      InitWriter s f w h env = { s with videoWriter := some ⟨f ++ ".webm", w, h⟩ } := by
  unfold InitWriter
  cases env.openOk <;> cases env.newWriterOk <;> simp

/-- From a saver without a writer, one pass of the loop either writes nothing
and leaves the saver without a writer, or its first write is a keyframe. -/
theorem loopBody_first_write (s : WebmSaver) (f : String) (x : Sample) (env : Env)
    (hs : s.videoWriter = none) :
    (writeFlags (loopBody s f x env).trace = [] ∧
        ∀ s1, (loopBody s f x env).result = .ok s1 → s1.videoWriter = none) ∨
      (writeFlags (loopBody s f x env).trace).head? = some true := by
  by_cases hx : isKeyframe x = false
  · obtain ⟨h1, h2⟩ := loopBody_of_not_keyframe s f x env hs hx
    left
    refine ⟨by rw [h1]; rfl, ?_⟩
    intro s1 hs1
    rcases h2 with h2 | ⟨p, h2⟩
    · rw [h2] at hs1
      cases hs1
      exact hs
    · rw [h2] at hs1
      cases hs1
  · have hk : isKeyframe x = true := by simpa using hx
    unfold isKeyframe at hk
    cases h0 : x.Data[0]? with
    | none => rw [h0] at hk; cases hk
    | some d0 =>
      rw [h0] at hk
      simp only at hk
      unfold loopBody
      rw [index_eq_ok _ _ _ h0]
      simp only [lowBit_eq, hk, if_true]
      unfold keyframeBlock
      cases h6 : index x.Data 6 with
      | error p => left; simp [writeFlags]
      | ok b0 =>
      cases h7 : index x.Data 7 with
      | error p => left; simp [writeFlags]
      | ok b1 =>
      cases h8 : index x.Data 8 with
      | error p => left; simp [writeFlags]
      | ok b2 =>
      cases h9 : index x.Data 9 with
      | error p => left; simp [writeFlags]
      | ok b3 =>
        simp only [hs]
        rcases InitWriter_cases s f (widthOf (rawOf b0 b1 b2 b3)) (heightOf (rawOf b0 b1 b2 b3)) env
          with hi | hi
        · left
          rw [hi, writeBlock_none s _ x env hs]
          simp [writeFlags, hs]
        · right
          rw [hi]
          have hw := writeBlock_flags
            { s with videoWriter := some ⟨f ++ ".webm", widthOf (rawOf b0 b1 b2 b3),
                heightOf (rawOf b0 b1 b2 b3)⟩ } true x env (by simp)
          rw [writeFlags_append, hw]
          rfl

theorem drain_first_write (f : String) (xs : List (Sample × Env)) :
    ∀ s : WebmSaver, s.videoWriter = none →
    (writeFlags (drain s f xs).trace = [] ∧
        ∀ s1, (drain s f xs).result = .ok s1 → s1.videoWriter = none) ∨
      (writeFlags (drain s f xs).trace).head? = some true := by
  induction xs with
  | nil =>
    intro s hs
    left
    refine ⟨rfl, ?_⟩
    intro s1 h1
    simp [drain] at h1
    rw [← h1]; exact hs
  | cons x rest ih =>
    intro s hs
    obtain ⟨sample, env⟩ := x
    rcases loopBody_first_write s f sample env hs with ⟨hnone, hstay⟩ | hkey
    · cases hr : (loopBody s f sample env).result with
      | error p =>
        left
        rw [drain_cons_error s f sample env rest p hr]
        refine ⟨hnone, ?_⟩
        intro s1 h1; cases h1
      | ok s1 =>
        rw [drain_cons_ok s s1 f sample env rest hr]
        simp only [writeFlags_append, hnone, List.nil_append]
        exact ih s1 (hstay s1 hr)
    · right
      cases hr : (loopBody s f sample env).result with
      | error p =>
        rw [drain_cons_error s f sample env rest p hr]
        exact hkey
      | ok s1 =>
        rw [drain_cons_ok s s1 f sample env rest hr]
        simp only [writeFlags_append]
        cases hfl : writeFlags (loopBody s f sample env).trace with
        | nil => rw [hfl] at hkey; cases hkey
        | cons k ks => rw [hfl] at hkey; simpa using hkey

theorem drain_of_not_keyframe (f : String) (pre : List (Sample × Env))
    (hpre : ∀ x ∈ pre, isKeyframe x.1 = false) :
    ∀ s : WebmSaver, s.videoWriter = none →
    (drain s f pre).trace = [] ∧
      ∀ s1, (drain s f pre).result = .ok s1 → s1 = s := by
  induction pre with
  | nil =>
    intro s _
    refine ⟨rfl, ?_⟩
    intro s1 h1
    simp [drain] at h1
    exact h1.symm
  | cons x rest ih =>
    intro s hs
    obtain ⟨sample, env⟩ := x
    have hx : isKeyframe sample = false := hpre (sample, env) (List.mem_cons_self _ _)
    have hrest : ∀ x ∈ rest, isKeyframe x.1 = false :=
      fun y hy => hpre y (List.mem_cons_of_mem _ hy)
    obtain ⟨h1, h2⟩ := loopBody_of_not_keyframe s f sample env hs hx
    rcases h2 with h2 | ⟨p, h2⟩
    · rw [drain_cons_ok s s f sample env rest h2]
      simp only [h1, List.nil_append]
      exact ih hrest s hs
    · rw [drain_cons_error s f sample env rest p h2]
      refine ⟨h1, ?_⟩
      intro s1 hs1; cases hs1

theorem drain_append_error (f : String) (ys : List (Sample × Env)) (p : Panic) :
    ∀ (xs : List (Sample × Env)) (s : WebmSaver), (drain s f xs).result = .error p →
      drain s f (xs ++ ys) = drain s f xs := by
  intro xs
  induction xs with
  | nil => intro s h; simp [drain] at h
  | cons x rest ih =>
    intro s h
    obtain ⟨sample, env⟩ := x
    cases hr : (loopBody s f sample env).result with
    | error q =>
      rw [List.cons_append, drain_cons_error s f sample env _ q hr,
        drain_cons_error s f sample env _ q hr]
    | ok s1 =>
      rw [drain_cons_ok s s1 f sample env rest hr] at h
      rw [List.cons_append, drain_cons_ok s s1 f sample env _ hr,
        drain_cons_ok s s1 f sample env _ hr, ih s1 h]

theorem drain_append_ok (f : String) (ys : List (Sample × Env)) :
    ∀ (xs : List (Sample × Env)) (s s1 : WebmSaver), (drain s f xs).result = .ok s1 →
      drain s f (xs ++ ys) =
        ⟨(drain s f xs).trace ++ (drain s1 f ys).trace, (drain s1 f ys).result⟩ := by
  intro xs
  induction xs with
  | nil =>
    intro s s1 h
    simp only [drain, Except.ok.injEq] at h
    rw [h]
    simp [drain]
  | cons x rest ih =>
    intro s s1 h
    obtain ⟨sample, env⟩ := x
    cases hr : (loopBody s f sample env).result with
    | error q =>
      rw [drain_cons_error s f sample env _ q hr] at h
      cases h
    | ok s2 =>
      rw [drain_cons_ok s s2 f sample env rest hr] at h
      rw [List.cons_append, drain_cons_ok s s2 f sample env _ hr,
        drain_cons_ok s s2 f sample env _ hr, ih s2 s1 h]
      simp

theorem writes_append (a b : List Event) : writes (a ++ b) = writes a ++ writes b := by
  simp [writes]

theorem writeFlags_writes (t : List Event) : writeFlags (writes t) = writeFlags t := by
  induction t with
  | nil => rfl
  | cons e rest ih =>
    cases e <;> simp [writes, writeFlags, Event.isWrite] <;> exact ih

theorem writes_Close (s : WebmSaver) : writes (Close s).2 = [] := by
  unfold Close
  cases s.videoWriter <;> rfl

/-- The writes of a run of the loop of `recordVideo` are the writes of one
drain, from the same saver, over a subsequence of the samples popped during
the script. -/
theorem recordLoop_writes (track : Track) (f : String) :
    ∀ (script : List Iteration) (ellapse : Int) (saver : WebmSaver) (run : Run Exit),
      recordLoop track f script ellapse saver = some run →
      ∃ xs, xs.Sublist (scriptSamples script) ∧
        writes run.trace = writes (drain saver f xs).trace := by
  intro script
  induction script with
  | nil =>
    intro ellapse saver run h
    unfold recordLoop at h
    split at h
    · cases h
    · simp only [Option.some.injEq] at h
      rw [← h]
      exact ⟨[], List.Sublist.refl _, rfl⟩
  | cons it rest ih =>
    intro ellapse saver run h
    unfold recordLoop at h
    split at h
    · simp only at h
      split at h
      · -- io.EOF
        simp only [Option.some.injEq] at h
        rw [← h]
        refine ⟨[], List.nil_sublist _, ?_⟩
        show writes ([Event.SaverClose] ++ (Close saver).2) = _
        rw [writes_append, writes_Close]
        rfl
      · -- another read error
        split at h
        · simp only [PushChuncks, Option.some.injEq] at h
          rw [← h]
          exact ⟨[], List.nil_sublist _, rfl⟩
        · simp only [Option.map_eq_some'] at h
          obtain ⟨run1, h1, h2⟩ := h
          obtain ⟨xs, hsub, hw⟩ := ih _ _ _ h1
          refine ⟨xs, ?_, ?_⟩
          · exact hsub.trans (List.sublist_append_right _ _)
          · rw [← h2]
            show writes ([Event.LogReadError] ++ run1.trace) = _
            rw [writes_append, ← hw]
            rfl
      · -- a packet
        rename_i p _
        split at h
        · simp only [PushChuncks] at h
          split at h
          · rename_i e he
            simp only [Option.some.injEq] at h
            rw [← h]
            refine ⟨it.popped, List.sublist_append_left _ _, ?_⟩
            show writes ([Event.PushChuncks (some p)] ++ _) = _
            rw [writes_append]
            rfl
          · rename_i saver1 hs1
            simp only [Option.map_eq_some'] at h
            obtain ⟨run1, h1, h2⟩ := h
            obtain ⟨xs, hsub, hw⟩ := ih _ _ _ h1
            refine ⟨it.popped ++ xs, ?_, ?_⟩
            · exact List.Sublist.append (List.Sublist.refl _) hsub
            · rw [← h2, drain_append_ok f xs it.popped saver saver1 hs1]
              show writes ([Event.PushChuncks (some p)] ++ _ ++ run1.trace) = _
              rw [writes_append, writes_append, writes_append, hw]
              rfl
        · obtain ⟨xs, hsub, hw⟩ := ih _ _ _ h
          exact ⟨xs, hsub.trans (List.sublist_append_right _ _), hw⟩
    · simp only [Option.some.injEq] at h
      rw [← h]
      exact ⟨[], List.nil_sublist _, rfl⟩

/-- One pass of the loop of `PushChuncks` on a keyframe sample whose bytes 6 to 9
exist, from a saver without a writer: `InitWriter` is called with the decoded
width and height, then the write block runs on the saver `InitWriter` left. -/
theorem loopBody_keyframe (s : WebmSaver) (filename : String) (sample : Sample)
    (env : Env) (d0 b0 b1 b2 b3 : Byte)
    (h0 : sample.Data[0]? = some d0) (hkey : d0.val % 2 = 0)
    (h6 : sample.Data[6]? = some b0) (h7 : sample.Data[7]? = some b1)
    (h8 : sample.Data[8]? = some b2) (h9 : sample.Data[9]? = some b3)
    (hnil : s.videoWriter = none) :
    loopBody s filename sample env =
      ⟨Event.InitWriter filename (widthOf (rawOf b0 b1 b2 b3)) (heightOf (rawOf b0 b1 b2 b3)) ::
          (writeBlock (InitWriter s filename (widthOf (rawOf b0 b1 b2 b3))
            (heightOf (rawOf b0 b1 b2 b3)) env) true sample env).2,
       .ok (writeBlock (InitWriter s filename (widthOf (rawOf b0 b1 b2 b3))
            (heightOf (rawOf b0 b1 b2 b3)) env) true sample env).1⟩ := by
  have hk : (d0.val % 2 == 0) = true := by simp [hkey]
  simp [loopBody, keyframeBlock, index_eq_ok _ _ _ h0, index_eq_ok _ _ _ h6,
    index_eq_ok _ _ _ h7, index_eq_ok _ _ _ h8, index_eq_ok _ _ _ h9, lowBit_eq, hk, hnil]

theorem InitWriter_eq (s : WebmSaver) (f : String) (w h : Nat) (env : Env) :
    InitWriter s f w h env =
      if (env.openOk && env.newWriterOk) = true
      then { s with videoWriter := some ⟨f ++ ".webm", w, h⟩ } else s := by
  unfold InitWriter
  cases env.openOk <;> cases env.newWriterOk <;> simp

/-! ## The claims -/

/-- Claim C1: let `PushChuncks` be called with a packet after which the sample
builder pops the samples `pre`, then a keyframe sample (payload byte 0 has low
bit 0) with bytes `b0..b3` at payload offsets 6 to 9, then the samples `rest`,
and let the samples `pre` be drained without panic and leave the saver without
a writer. With `raw = b0 | b1<<8 | b2<<16 | b3<<24`, the call makes the calls
of draining `pre`, then calls `InitWriter` with width `(raw >> 16) & 0x3FFF`
and height `raw & 0x3FFF`, then runs the write block for the keyframe on the
saver `InitWriter` left, and then drains `rest`. `InitWriter` stores a writer
with exactly these dimensions when the file opens and the block writer is
created, and leaves the saver alone otherwise. Both dimensions are at most
16383. -/
theorem C1_keyframe_dimensions (s s0 : WebmSaver) (packet : Packet) (filename : String)
    (pre rest : List (Sample × Env)) (sample : Sample)
    (env : Env) (d0 b0 b1 b2 b3 : Byte) (raw : Nat)
    (h0 : sample.Data[0]? = some d0) (hkey : d0.val % 2 = 0)
    (h6 : sample.Data[6]? = some b0) (h7 : sample.Data[7]? = some b1)
    (h8 : sample.Data[8]? = some b2) (h9 : sample.Data[9]? = some b3)
    (hraw : raw = (b0.val ||| (b1.val <<< 8) ||| (b2.val <<< 16) ||| (b3.val <<< 24)))
    (hpre : (drain s filename pre).result = .ok s0)
    (hnil : s0.videoWriter = none) :
    PushChuncks s (some packet) filename (pre ++ (sample, env) :: rest) =
        ⟨(drain s filename pre).trace ++
          (Event.InitWriter filename ((raw >>> 16) &&& 0x3FFF) (raw &&& 0x3FFF) ::
            (writeBlock (InitWriter s0 filename ((raw >>> 16) &&& 0x3FFF) (raw &&& 0x3FFF) env)
              true sample env).2 ++
            (drain (writeBlock (InitWriter s0 filename ((raw >>> 16) &&& 0x3FFF)
              (raw &&& 0x3FFF) env) true sample env).1 filename rest).trace),
         (drain (writeBlock (InitWriter s0 filename ((raw >>> 16) &&& 0x3FFF)
              (raw &&& 0x3FFF) env) true sample env).1 filename rest).result⟩
      ∧ InitWriter s0 filename ((raw >>> 16) &&& 0x3FFF) (raw &&& 0x3FFF) env =
          (if (env.openOk && env.newWriterOk) = true
           then ⟨some ⟨filename ++ ".webm", (raw >>> 16) &&& 0x3FFF, raw &&& 0x3FFF⟩,
             s0.videoTimestamp⟩
           else s0)
      ∧ (raw >>> 16) &&& 0x3FFF ≤ 16383 ∧ raw &&& 0x3FFF ≤ 16383 := by
  refine ⟨?_, InitWriter_eq _ _ _ _ _, Nat.and_le_right, Nat.and_le_right⟩
  subst hraw
  have hbody := loopBody_keyframe s0 filename sample env d0 b0 b1 b2 b3 h0 hkey h6 h7 h8 h9 hnil
  simp only [rawOf, widthOf, heightOf] at hbody
  have hres := congrArg Run.result hbody
  have htr := congrArg Run.trace hbody
  simp only at hres htr
  show drain s filename (pre ++ (sample, env) :: rest) = _
  rw [drain_append_ok filename _ pre s s0 hpre, drain_cons_ok s0 _ filename sample env rest hres,
    htr]

/-- Witness of C1: a sample that is not a keyframe, then a keyframe with the
bytes `0x00,0x00,0x01,0x00` at offsets 6 to 9, then one more sample. The
container is opened with width 1 and height 0, the keyframe is written, and
exactly one further frame is written after it. -/
theorem C1_keyframe_dimensions_witness :
    PushChuncks NewWebmSaver (some ⟨1⟩) "rec"
        [(deltaSample, allOk), (keySample, allOk), (deltaSample, allOk)] =
        ⟨[Event.InitWriter "rec" 1 0, Event.Write true 33 keySample.Data,
          Event.Write false 66 deltaSample.Data],
         .ok ⟨some ⟨"rec.webm", 1, 0⟩, 66000000⟩⟩
      ∧ InitWriter NewWebmSaver "rec" 1 0 allOk = ⟨some ⟨"rec.webm", 1, 0⟩, 0⟩
      ∧ (1 : Nat) ≤ 16383 ∧ (0 : Nat) ≤ 16383 :=
  C1_keyframe_dimensions NewWebmSaver NewWebmSaver ⟨1⟩ "rec" [(deltaSample, allOk)]
    [(deltaSample, allOk)] keySample allOk 0x10 0x00 0x00 0x01 0x00 65536
    (by decide) (by decide) (by decide) (by decide) (by decide) (by decide) (by decide)
    (by decide) (by decide)

/-- Claim C2: in every run of `recordVideo`, which starts from a fresh saver,
the first call of `videoWriter.Write` (if there is one) carries the keyframe
flag; and samples that are not keyframes, drained by a saver that is still
fresh, cause no call at all (no `InitWriter`, no `Write`) and leave the saver
exactly as it was, so nothing of them is kept. -/
theorem C2_no_write_before_first_keyframe (track : Track) (filename : String)
    (since0 : Int) (script : List Iteration) (run : Run Exit) (pre : List (Sample × Env))
    (hrun : recordVideo (some track) filename since0 script = some run)
    (hpre : ∀ x ∈ pre, isKeyframe x.1 = false) :
    (writeFlags run.trace).head? ≠ some false ∧
      (drain NewWebmSaver filename pre).trace = [] ∧
      ∀ s1, (drain NewWebmSaver filename pre).result = .ok s1 → s1 = NewWebmSaver := by
  refine ⟨?_, drain_of_not_keyframe filename pre hpre NewWebmSaver rfl⟩
  obtain ⟨xs, _, hw⟩ := recordLoop_writes track filename script since0 NewWebmSaver run hrun
  have hflags : writeFlags run.trace = writeFlags (drain NewWebmSaver filename xs).trace := by
    rw [← writeFlags_writes, hw, writeFlags_writes]
  rw [hflags]
  rcases drain_first_write filename xs NewWebmSaver rfl with ⟨hnone, _⟩ | hkey
  · rw [hnone]
    simp
  · rw [hkey]
    simp

/-- Witness of C2: two samples that are not keyframes, then a keyframe, then a
further sample, then end of stream. The first write is the keyframe. -/
theorem C2_no_write_before_first_keyframe_witness :
    recordVideo (some videoTrack) "rec" 0
        [⟨1000000000, ReadResult.packet ⟨1⟩, [(deltaSample, allOk), (deltaSample, allOk)]⟩,
         ⟨2000000000, ReadResult.packet ⟨2⟩, [(keySample, allOk), (deltaSample, allOk)]⟩,
         ⟨3000000000, ReadResult.eof, []⟩] =
      some ⟨[Event.PushChuncks (some ⟨1⟩), Event.PushChuncks (some ⟨2⟩),
             Event.InitWriter "rec" 1 0, Event.Write true 33 keySample.Data,
             Event.Write false 66 deltaSample.Data, Event.SaverClose, Event.WriterClose],
            .ok Exit.eof⟩
      ∧ (writeFlags [Event.PushChuncks (some ⟨1⟩), Event.PushChuncks (some ⟨2⟩),
             Event.InitWriter "rec" 1 0, Event.Write true 33 keySample.Data,
             Event.Write false 66 deltaSample.Data, Event.SaverClose,
             Event.WriterClose]).head? ≠ some false
      ∧ (drain NewWebmSaver "rec" [(deltaSample, allOk), (deltaSample, allOk)]).trace = []
      ∧ ∀ s1, (drain NewWebmSaver "rec" [(deltaSample, allOk), (deltaSample, allOk)]).result
          = .ok s1 → s1 = NewWebmSaver :=
  ⟨by decide,
   C2_no_write_before_first_keyframe videoTrack "rec" 0
    [⟨1000000000, ReadResult.packet ⟨1⟩, [(deltaSample, allOk), (deltaSample, allOk)]⟩,
     ⟨2000000000, ReadResult.packet ⟨2⟩, [(keySample, allOk), (deltaSample, allOk)]⟩,
     ⟨3000000000, ReadResult.eof, []⟩]
    ⟨[Event.PushChuncks (some ⟨1⟩), Event.PushChuncks (some ⟨2⟩),
      Event.InitWriter "rec" 1 0, Event.Write true 33 keySample.Data,
      Event.Write false 66 deltaSample.Data, Event.SaverClose, Event.WriterClose],
     .ok Exit.eof⟩
    [(deltaSample, allOk), (deltaSample, allOk)] (by decide) (by decide)⟩

/-- Claim C4, evaluated: a keyframe sample of three bytes makes `PushChuncks`
panic at `sample.Data[6]`, and a sample with an empty payload makes it panic at
`sample.Data[0]`; neither is treated as a non-keyframe. -/
theorem C4_short_payload_panics :
    PushChuncks NewWebmSaver (some ⟨1⟩) "rec" [(shortKeySample, allOk)] =
        ⟨[], .error (Panic.indexOutOfRange 6 3)⟩ ∧
      PushChuncks NewWebmSaver (some ⟨1⟩) "rec" [(emptySample, allOk)] =
        ⟨[], .error (Panic.indexOutOfRange 0 0)⟩ := by
  decide

/-- Claim C5, evaluated: a message without a semicolon (`"abc"`, or the empty
message) makes the handler panic at `message[1]`, and the message
`"id;start;x"`, which has three fields, starts `recordVideo` for the track
`"id"` and then closes the peer connection. -/
theorem C5_field_count_not_checked :
    onMessage oneTrack "abc" 0 [] = some ⟨[], .error (Panic.indexOutOfRange 1 1)⟩ ∧
      onMessage oneTrack "" 0 [] = some ⟨[], .error (Panic.indexOutOfRange 1 1)⟩ ∧
      onMessage oneTrack "id;start;x" 0 [⟨1000000000, ReadResult.eof, []⟩] =
        some ⟨[Event.RecordVideo (some videoTrack) "id", Event.SaverClose, Event.PeerClose],
          .ok ()⟩ := by
  decide

/-- Claim C6, evaluated: with no entry for `"nosuch"` in the registry, the
message `"nosuch;start"` calls `recordVideo` with the nil track, which panics
on its first use of the track. -/
theorem C6_start_unknown_id_panics :
    onMessage noTracks "nosuch;start" 0 [] =
      some ⟨[Event.RecordVideo none "nosuch"], .error Panic.nilDereference⟩ := by
  decide

/-- Claim C7, evaluated: a run in which a keyframe opens the container and the
elapsed time then reaches ten seconds returns from `recordVideo` without any
call of `saver.Close()`, while the same run ended by `io.EOF` calls it. -/
theorem C7_deadline_exit_skips_Close :
    recordVideo (some videoTrack) "rec" 0
        [⟨10000000000, ReadResult.packet ⟨1⟩, [(keySample, allOk)]⟩] =
      some ⟨[Event.PushChuncks (some ⟨1⟩), Event.InitWriter "rec" 1 0,
             Event.Write true 33 keySample.Data], .ok Exit.deadline⟩ ∧
    recordVideo (some videoTrack) "rec" 0
        [⟨1000000000, ReadResult.packet ⟨1⟩, [(keySample, allOk)]⟩,
         ⟨2000000000, ReadResult.eof, []⟩] =
      some ⟨[Event.PushChuncks (some ⟨1⟩), Event.InitWriter "rec" 1 0,
             Event.Write true 33 keySample.Data, Event.SaverClose, Event.WriterClose],
            .ok Exit.eof⟩ := by
  decide

/-- Claim C8, evaluated: two calls of `Close` on a saver with a writer call
`videoWriter.Close()` twice, because `Close` does not clear `videoWriter`; and
`recordVideo` itself closes the writer twice when a write fails (first `Close`)
and the stream then ends (second `Close`). -/
theorem C8_Close_twice_closes_twice :
    (closeTimes 2 openSaver).2 = [Event.WriterClose, Event.WriterClose] ∧
      (closeTimes 2 openSaver).1 = openSaver ∧
      recordVideo (some videoTrack) "rec" 0
          [⟨1000000000, ReadResult.packet ⟨1⟩, [(keySample, writeFails)]⟩,
           ⟨2000000000, ReadResult.eof, []⟩] =
        some ⟨[Event.PushChuncks (some ⟨1⟩), Event.InitWriter "rec" 1 0,
               Event.Write true 33 keySample.Data, Event.WriterClose,
               Event.SaverClose, Event.WriterClose], .ok Exit.eof⟩ := by
  decide

/-- Claim C9, evaluated: when the write of the keyframe fails, the writer is
closed and the saver keeps it, so the next sample of the same call and the
sample of the next packet are still passed to `videoWriter.Write`. -/
theorem C9_writes_continue_after_write_error :
    recordVideo (some videoTrack) "rec" 0
        [⟨1000000000, ReadResult.packet ⟨1⟩, [(keySample, writeFails), (deltaSample, allOk)]⟩,
         ⟨2000000000, ReadResult.packet ⟨2⟩, [(deltaSample, allOk)]⟩,
         ⟨3000000000, ReadResult.eof, []⟩] =
      some ⟨[Event.PushChuncks (some ⟨1⟩), Event.InitWriter "rec" 1 0,
             Event.Write true 33 keySample.Data, Event.WriterClose,
             Event.Write false 66 deltaSample.Data,
             Event.PushChuncks (some ⟨2⟩), Event.Write false 99 deltaSample.Data,
             Event.SaverClose, Event.WriterClose], .ok Exit.eof⟩ := by
  decide

/-- Claim C10, evaluated: when `track.ReadRTP()` of a video track returns an
error other than `io.EOF`, the error is logged and `saver.PushChuncks` is then
called with the nil packet, where the push into the sample builder panics;
the later packet of the script is never read. -/
theorem C10_failed_read_is_pushed :
    recordVideo (some videoTrack) "rec" 0
        [⟨1000000000, ReadResult.failed, []⟩,
         ⟨2000000000, ReadResult.packet ⟨2⟩, [(keySample, allOk)]⟩] =
      some ⟨[Event.LogReadError, Event.PushChuncks none], .error Panic.nilDereference⟩ := by
  decide

end ServerWebRTC
